import Mathlib

/-!
Verification development for the DeployBot deploy-orchestration core.

The Python sources under `backend/` are shallowly embedded: strings are
`List Char`, wall-clock instants and float timestamps are `ℚ`, Python ints
are `Int`/`Nat`, dicts keyed by strings are association lists, and fallible
operations return `Option` or a `Bool` success flag, mirroring the return
values of the Python functions.  Every definition is translated from the
repository source (file and function named in its doc comment).
-/

namespace DeployBot

/-! ## Python string primitives (`str` semantics restricted to ASCII input) -/

/-- Whitespace characters of Python `str.strip` / `\s`:
space, tab, newline, carriage return, vertical tab, form feed. -/
def isPySpace (c : Char) : Bool :=
  c = ' ' || c = '\t' || c = '\n' || c = '\r' ||
    c = Char.ofNat 11 || c = Char.ofNat 12

/-- Word characters of the regex class `\w` (ASCII fragment): letters, digits, `_`. -/
def isWordChar (c : Char) : Bool :=
  c.isAlphanum || c = '_'

/-- Python `str.lstrip()`. -/
def pyLstrip (l : List Char) : List Char :=
  l.dropWhile isPySpace

/-- Python `str.rstrip()`. -/
def pyRstrip (l : List Char) : List Char :=
  (l.reverse.dropWhile isPySpace).reverse

/-- Python `str.strip()`. -/
def pyStrip (l : List Char) : List Char :=
  pyRstrip (pyLstrip l)

/-- Python `str.rstrip(':')` (drops every trailing colon). -/
def rstripColons (l : List Char) : List Char :=
  (l.reverse.dropWhile (· = ':')).reverse

/-- Python `str.lower()` (ASCII). -/
def toLowerL (l : List Char) : List Char :=
  l.map Char.toLower

/-- Does `p` start the list `l`?  (Python `str.startswith`.) -/
def startsL : List Char → List Char → Bool
  | [], _ => true
  | _ :: _, [] => false
  | p :: ps, c :: cs => p = c && startsL ps cs

/-- Does `p` end the list `l`?  (Python `str.endswith`.) -/
def endsL (p l : List Char) : Bool :=
  startsL p.reverse l.reverse

/-- Index of the first occurrence of `needle` in `hay`
(Python `str.find`, as an `Option`). -/
def subIdx? (needle : List Char) : List Char → Option Nat
  | [] => if startsL needle [] then some 0 else none
  | c :: cs =>
    if startsL needle (c :: cs) then some 0
    else (subIdx? needle cs).map (· + 1)

/-- Python `needle in hay` substring test. -/
def hasSub (needle hay : List Char) : Bool :=
  (subIdx? needle hay).isSome

/-- Python `str.split(sep)` for a single-character separator
(empty fields are kept, exactly as in Python). -/
def splitChar (sep : Char) : List Char → List (List Char)
  | [] => [[]]
  | c :: cs =>
    match splitChar sep cs with
    | [] => [[]]
    | h :: t => if c = sep then [] :: h :: t else (c :: h) :: t

/-- Break a list at the first occurrence of `sep`:
returns the piece before it and, when `sep` occurs, the remainder after it. -/
def breakAtChar (sep : Char) : List Char → List Char × Option (List Char)
  | [] => ([], none)
  | c :: cs =>
    if c = sep then ([], some cs)
    else
      match breakAtChar sep cs with
      | (a, b) => (c :: a, b)

/-- Python `str.split(' ', 2)`. -/
def pySplitSp2 (l : List Char) : List (List Char) :=
  match breakAtChar ' ' l with
  | (p0, none) => [p0]
  | (p0, some r0) =>
    match breakAtChar ' ' r0 with
    | (p1, none) => [p0, p1]
    | (p1, some r1) => [p0, p1, r1]

/-- Worker of `removeSub`, structurally recursive on a fuel bounded below
by the input length (each step consumes at least one character, so the
fuel never runs out on the initial call). -/
def removeSubFuel (n0 : Char) (nrest : List Char) : Nat → List Char → List Char
  | 0, _ => []
  | _, [] => []
  | fuel + 1, c :: cs =>
    if startsL (n0 :: nrest) (c :: cs) then
      removeSubFuel n0 nrest fuel (cs.drop nrest.length)
    else
      c :: removeSubFuel n0 nrest fuel cs

/-- Python `hay.replace(needle, '')` for a non-empty `needle`
(`n0 :: nrest` is the needle). -/
def removeSub (n0 : Char) (nrest : List Char) (l : List Char) : List Char :=
  removeSubFuel n0 nrest l.length l

/-- Value of a digit list read in base 10 (most significant first). -/
def digitsToNat (ds : List Char) : Nat :=
  ds.foldl (fun a c => a * 10 + (c.toNat - '0'.toNat)) 0

/-- Worker of `findTags`, structurally recursive on a fuel bounded below
by the input length. -/
def findTagsFuel : Nat → List Char → List (List Char)
  | 0, _ => []
  | _, [] => []
  | fuel + 1, c :: cs =>
    if c = '#' then
      match cs.takeWhile isWordChar with
      | [] => findTagsFuel fuel cs
      | w0 :: wrest =>
        ('#' :: w0 :: wrest) :: findTagsFuel fuel (cs.drop (w0 :: wrest).length)
    else findTagsFuel fuel cs

/-- Python `re.findall(r'#\w+', text)` (tasks.py line 125): all
non-overlapping matches of `#` followed by one or more word characters,
scanning left to right and resuming after each match. -/
def findTags (l : List Char) : List (List Char) :=
  findTagsFuel l.length l

/-- When the regex `\s*#\w+` matches at the head of `l`, the remainder of
`l` after the match; `none` when it does not match here. -/
def tagTail? (l : List Char) : Option (List Char) :=
  match l.dropWhile isPySpace with
  | [] => none
  | c :: r =>
    if c = '#' then
      match r.takeWhile isWordChar with
      | [] => none
      | w0 :: wrest => some (r.drop (w0 :: wrest).length)
    else none

/-- Worker of `removeTagRuns`, structurally recursive on a fuel bounded
below by the input length (a match of `\s*#\w+` consumes at least two
characters, a non-match consumes one). -/
def removeTagRunsFuel : Nat → List Char → List Char
  | 0, _ => []
  | _, [] => []
  | fuel + 1, c :: cs =>
    match tagTail? (c :: cs) with
    | some rem => removeTagRunsFuel fuel rem
    | none => c :: removeTagRunsFuel fuel cs

/-- Python `re.sub(r'\s*#\w+', '', text)` (tasks.py line 128): scan left to
right; wherever a whitespace run followed by a hashtag token matches, drop
the whole match and resume after it, otherwise keep the character. -/
def removeTagRuns (l : List Char) : List Char :=
  removeTagRunsFuel l.length l

/-! ## tasks.py — task catalog and selector (`TaskSelector`) -/

/-- A parsed TODO task (the dict built in `TaskSelector.parse_todo_file`,
tasks.py lines 139-151).  `heuristicScore` is the `heuristic_score` entry
added later by `_select_task_heuristic`; `sectionName` embeds the
`section` key (`section` is a Lean keyword). -/
structure Task where
  id : Nat
  text : List Char
  originalText : List Char
  tags : List (List Char)
  completed : Bool
  app : List Char
  sectionName : List Char
  lineNumber : Nat
  priority : Int
  estimatedDuration : Int
  heuristicScore : Int := 0
  deriving Repr, DecidableEq

/-- `TaskSelector.tag_app_mapping` (tasks.py lines 43-54), in dict order. -/
def tagAppMapping : List (List Char × List Char) :=
  [("writing".toList, "Bear".toList),
   ("creative".toList, "Figma".toList),
   ("design".toList, "Figma".toList),
   ("research".toList, "Safari".toList),
   ("code".toList, "VSCode".toList),
   ("backend".toList, "Terminal".toList),
   ("business".toList, "Notion".toList),
   ("todo".toList, "Things".toList),
   ("notes".toList, "Bear".toList),
   ("email".toList, "Mail".toList)]

/-- The `keyword_mappings` dict of `_determine_app_for_task`
(tasks.py lines 180-197), in dict order. -/
def keywordAppMapping : List (List Char × List Char) :=
  [("write".toList, "Bear".toList),
   ("document".toList, "Bear".toList),
   ("blog".toList, "Bear".toList),
   ("note".toList, "Bear".toList),
   ("design".toList, "Figma".toList),
   ("mockup".toList, "Figma".toList),
   ("wireframe".toList, "Figma".toList),
   ("code".toList, "VSCode".toList),
   ("develop".toList, "VSCode".toList),
   ("implement".toList, "VSCode".toList),
   ("research".toList, "Safari".toList),
   ("google".toList, "Safari".toList),
   ("investigate".toList, "Safari".toList),
   ("email".toList, "Mail".toList),
   ("call".toList, "FaceTime".toList),
   ("meeting".toList, "Zoom".toList)]

/-- Association-list lookup (Python `dict` membership plus indexing). -/
def lookupPairs {α : Type} (key : List Char) : List (List Char × α) → Option α
  | [] => none
  | (k, v) :: rest => if k = key then some v else lookupPairs key rest

/-- `TaskSelector._determine_app_for_task` (tasks.py lines 167-206):
first tag whose `#`-less lowercase form is in `tag_app_mapping`; else the
first keyword of `keyword_mappings` contained in the lowercased text;
else `"Notion"`. -/
def determineApp (tags : List (List Char)) (taskText : List Char) : List Char :=
  match tags.findSome?
      (fun t => lookupPairs (toLowerL (removeSub '#' [] t)) tagAppMapping) with
  | some app => app
  | none =>
    let taskLower := toLowerL taskText
    match keywordAppMapping.find? (fun kv => hasSub kv.1 taskLower) with
    | some kv => kv.2
    | none => "Notion".toList

/-- The `tag_priorities` dict of `_calculate_task_priority`
(tasks.py lines 212-220). -/
def tagPriorities : List (List Char × Int) :=
  [("#urgent".toList, 3),
   ("#important".toList, 2),
   ("#high".toList, 2),
   ("#low".toList, -2),
   ("#someday".toList, -3),
   ("#short".toList, 1),
   ("#solo".toList, 1)]

def highPriorityKeywords : List (List Char) :=
  ["urgent".toList, "asap".toList, "deadline".toList, "important".toList]

def lowPriorityKeywords : List (List Char) :=
  ["someday".toList, "maybe".toList, "nice to have".toList]

/-- `TaskSelector._calculate_task_priority` (tasks.py lines 208-242):
base 5, plus the bonus of every tag found in `tag_priorities`, `+2` once if
a high-priority keyword occurs in the text, `-2` once for a low-priority
keyword, clamped to `[1, 10]`. -/
def calcTaskPriority (tags : List (List Char)) (taskText : List Char) : Int :=
  let p0 : Int := 5
  let p1 := tags.foldl
    (fun p t =>
      match lookupPairs (toLowerL t) tagPriorities with
      | some d => p + d
      | none => p) p0
  let taskLower := toLowerL taskText
  let p2 := if highPriorityKeywords.any (fun k => hasSub k taskLower) then p1 + 2 else p1
  let p3 := if lowPriorityKeywords.any (fun k => hasSub k taskLower) then p2 - 2 else p2
  max 1 (min 10 p3)

def quickKeywords : List (List Char) :=
  ["quick".toList, "simple".toList, "update".toList, "check".toList, "review".toList]

def longKeywords : List (List Char) :=
  ["implement".toList, "design".toList, "research".toList, "write".toList,
   "create".toList, "build".toList]

/-- `TaskSelector._estimate_task_duration` (tasks.py lines 244-272):
the first tag among `#short`/`#long`/`#quick` decides (20/120/10 minutes);
otherwise the first quick keyword in the text gives 15, the first long
keyword 90, default 45. -/
def estimateTaskDuration (tags : List (List Char)) (taskText : List Char) : Int :=
  match tags.findSome?
      (fun t =>
        let tl := toLowerL t
        if tl = "#short".toList then some (20 : Int)
        else if tl = "#long".toList then some 120
        else if tl = "#quick".toList then some 10
        else none) with
  | some d => d
  | none =>
    let taskLower := toLowerL taskText
    if quickKeywords.any (fun k => hasSub k taskLower) then 15
    else if longKeywords.any (fun k => hasSub k taskLower) then 90
    else 45

/-- Loop body of `TaskSelector.parse_todo_file` (tasks.py lines 103-154):
`##` lines update the current section (`line.replace('##', '').strip()`),
`- [` lines become tasks (`- [x]` completed, text from column 5, tags via
`re.findall`, clean text via `re.sub`), everything else is skipped.
`lineNum` and `taskId` carry the 1-based counters. -/
def parseTodoLines : List (List Char) → Nat → Nat → List Char → List Task
  | [], _, _, _ => []
  | rawLine :: rest, lineNum, taskId, curSection =>
    let l := pyStrip rawLine
    if startsL "##".toList l then
      parseTodoLines rest (lineNum + 1) taskId (pyStrip (removeSub '#' ['#'] l))
    else if startsL "- [".toList l then
      let completed := startsL "- [x]".toList l
      let taskText := pyStrip (l.drop 5)
      let tags := findTags taskText
      let cleanText := pyStrip (removeTagRuns taskText)
      { id := taskId
        text := cleanText
        originalText := taskText
        tags := tags
        completed := completed
        app := determineApp tags cleanText
        sectionName := curSection
        lineNumber := lineNum
        priority := calcTaskPriority tags cleanText
        estimatedDuration := estimateTaskDuration tags cleanText } ::
        parseTodoLines rest (lineNum + 1) (taskId + 1) curSection
    else
      parseTodoLines rest (lineNum + 1) taskId curSection

/-- `TaskSelector.parse_todo_file` (tasks.py lines 89-165) applied to the
file's text: split on newlines, walk the lines with counters starting at 1
and section "Unknown". -/
def parseTodoFile (content : List Char) : List Task :=
  parseTodoLines (splitChar '\n' content) 1 1 "Unknown".toList

/-- The selection context dict (graph.py lines 201-208); the defaults are
the ones `context.get(...)` supplies in tasks.py. -/
structure Ctx where
  projectName : List Char := []
  deployActive : Bool := false
  timerDuration : Int := 1800
  useLlm : Bool := true
  deriving Repr, DecidableEq

/-- Exclusion tests of `_filter_tasks_by_context` (tasks.py lines 357-377):
during a deploy drop `#backend` tasks; for timers of at most 900 s drop
`#long` tasks and tasks estimated over 60 minutes. -/
def contextKeep (ctx : Ctx) (t : Task) : Bool :=
  let tags := t.tags.map toLowerL
  if ctx.deployActive ∧ "#backend".toList ∈ tags then false
  else if ctx.timerDuration ≤ 900 ∧
      ("#long".toList ∈ tags ∨ t.estimatedDuration > 60) then false
  else true

/-- Priority adjustments of `_filter_tasks_by_context`
(tasks.py lines 379-392), with the wall-clock hour as a parameter:
`#creative` outside 08-18 h loses one point (floored at 1), `#research`
gains one, `#writing` during a deploy gains two. -/
def adjustTaskPriority (ctx : Ctx) (hour : Nat) (t : Task) : Task :=
  let tags := t.tags.map toLowerL
  let p := t.priority
  let p := if "#creative".toList ∈ tags ∧ (hour < 8 ∨ hour > 18) then max 1 (p - 1) else p
  let p := if "#research".toList ∈ tags then p + 1 else p
  let p := if "#writing".toList ∈ tags ∧ ctx.deployActive then p + 2 else p
  { t with priority := p }

/-- Stable insertion into a descending-ordered list: the new element goes
after every element whose key is at least as large (Python `list.sort` with
`reverse=True` is stable). -/
def insertDescBy (key : Task → Int) (x : Task) : List Task → List Task
  | [] => [x]
  | y :: ys => if key y < key x then x :: y :: ys else y :: insertDescBy key x ys

/-- Stable sort by descending key (`filtered.sort(key=..., reverse=True)`). -/
def sortByDesc (key : Task → Int) (l : List Task) : List Task :=
  l.foldl (fun acc x => insertDescBy key x acc) []

/-- `TaskSelector._filter_tasks_by_context` (tasks.py lines 351-404):
keep the tasks passing the context tests, apply the priority adjustments,
sort by priority descending. -/
def filterTasksByContext (ctx : Ctx) (hour : Nat) (tasks : List Task) : List Task :=
  sortByDesc (·.priority) ((tasks.filter (contextKeep ctx)).map (adjustTaskPriority ctx hour))

/-- Scoring step of `_select_task_heuristic` (tasks.py lines 573-590):
priority, `+2` for `#solo` during a deploy, `+1` for `#short` with a timer
of at most 1800 s, `+1` for `#creative` or `#writing`. -/
def heuristicScoreTask (ctx : Ctx) (t : Task) : Task :=
  let tags := t.tags.map toLowerL
  let s := t.priority
  let s := if ctx.deployActive ∧ "#solo".toList ∈ tags then s + 2 else s
  let s := if ctx.timerDuration ≤ 1800 ∧ "#short".toList ∈ tags then s + 1 else s
  let s := if "#creative".toList ∈ tags ∨ "#writing".toList ∈ tags then s + 1 else s
  { t with heuristicScore := s }

/-- `TaskSelector._select_task_heuristic` (tasks.py lines 566-600):
score every task, sort by score descending (stable), take the head
(`none` on an empty list; callers guarantee non-emptiness). -/
def selectTaskHeuristic (ctx : Ctx) (tasks : List Task) : Option Task :=
  match sortByDesc (·.heuristicScore) (tasks.map (heuristicScoreTask ctx)) with
  | [] => none
  | t :: _ => some t

/-- `TaskSelector._parse_llm_response` (tasks.py lines 542-564): empty
selection fails; otherwise first exact text match, then first fuzzy match
(either lowercased text contains the other). -/
def parseLlmSelection (resp : List Char) (tasks : List Task) : Option Task :=
  if resp = [] then none
  else
    match tasks.find? (fun t => t.text = resp) with
    | some t => some t
    | none =>
      let respLower := toLowerL resp
      tasks.find? (fun t =>
        hasSub respLower (toLowerL t.text) || hasSub (toLowerL t.text) respLower)

/-- `TaskSelector.select_best_task` (tasks.py lines 274-349).  The LLM
adapter is abstracted by `llmEnabled` (`self.openai_client` being
configured) and `llmResponse` (the `selected_task` text the adapter or its
response cache produced; `none` covers timeout, API failure and absent
responses, all of which fall through to the heuristic).  The analytics
suggestion record only attaches an id to the returned dict and is not
modelled.  Parse the TODO file, keep pending tasks, filter by context, then
LLM match or heuristic. -/
def selectBestTask (llmEnabled : Bool) (ctx : Ctx) (hour : Nat)
    (todoContent : List Char) (llmResponse : Option (List Char)) : Option Task :=
  let tasks := parseTodoFile todoContent
  if tasks = [] then none
  else
    let pending := tasks.filter (fun t => !t.completed)
    if pending = [] then none
    else
      let filtered := filterTasksByContext ctx hour pending
      if filtered = [] then none
      else
        if llmEnabled ∧ ctx.useLlm then
          match llmResponse.bind (fun r => parseLlmSelection r filtered) with
          | some t => some t
          | none => selectTaskHeuristic ctx filtered
        else selectTaskHeuristic ctx filtered

/-! ## timer.py — per-project deploy timers (`DeployTimer`) -/

/-- The `timer_info` dict built by `DeployTimer.start_timer`
(timer.py lines 73-87).  Instants are unix seconds as `ℚ`; the
`custom_config`, `created_at`, `grace_period_used`, `stop_reason` and
`expired_at` entries carry no behaviour relevant here and are omitted. -/
structure TimerInfo where
  projectName : List Char
  startTime : ℚ
  endTime : ℚ
  durationSeconds : ℚ
  remainingSeconds : ℚ
  deployCommand : Option (List Char)
  status : List Char
  paused : Bool
  pauseTime : Option ℚ
  pauseDuration : ℚ
  deriving Repr, DecidableEq

/-- The `active_timers` dict, `project_name -> timer_info`, in insertion
order. -/
abbrev Timers := List (List Char × TimerInfo)

/-- Dict lookup in `active_timers`. -/
def lookupTimer (p : List Char) : Timers → Option TimerInfo
  | [] => none
  | (k, v) :: rest => if k = p then some v else lookupTimer p rest

/-- Dict deletion `del active_timers[p]`. -/
def eraseTimer (p : List Char) : Timers → Timers
  | [] => []
  | (k, v) :: rest => if k = p then eraseTimer p rest else (k, v) :: eraseTimer p rest

/-- `DeployTimer.start_timer` (timer.py lines 56-109): stop (and hence
delete) any existing timer for the project, then insert a fresh running
timer ending `duration` seconds from `now`. -/
def startTimer (now : ℚ) (project : List Char) (duration : ℚ)
    (deployCommand : Option (List Char)) (timers : Timers) : Timers :=
  eraseTimer project timers ++
    [(project,
      { projectName := project
        startTime := now
        endTime := now + duration
        durationSeconds := duration
        remainingSeconds := duration
        deployCommand := deployCommand
        status := "running".toList
        paused := false
        pauseTime := none
        pauseDuration := 0 })]

/-- Per-timer step of `DeployTimer._timer_update_loop`
(timer.py lines 277-292): paused timers are untouched; otherwise
`remaining_seconds := max 0 (end_time - now)`, and a running timer whose
raw remaining time is at most zero becomes `expired`. -/
def tickTimerInfo (now : ℚ) (ti : TimerInfo) : TimerInfo :=
  if ti.paused then ti
  else
    let remaining := ti.endTime - now
    let ti := { ti with remainingSeconds := max 0 remaining }
    if remaining ≤ 0 ∧ ti.status = "running".toList then
      { ti with status := "expired".toList }
    else ti

/-- Did this tick move the timer from `running` to `expired`?
(the `expired_timers.append(project_name)` condition of the loop). -/
def tickExpires (now : ℚ) (ti : TimerInfo) : Bool :=
  ¬ ti.paused ∧ ti.endTime - now ≤ 0 ∧ ti.status = "running".toList

/-- One pass of `_timer_update_loop` (timer.py lines 271-296) over the
whole map: the updated map together with the projects whose timers just
expired (handed to `_handle_timer_expiry`). -/
def tickAllTimers (now : ℚ) (timers : Timers) : Timers × List (List Char) :=
  (timers.map (fun kv => (kv.1, tickTimerInfo now kv.2)),
   (timers.filter (fun kv => tickExpires now kv.2)).map (·.1))

/-- `DeployTimer._calculate_progress` (timer.py lines 380-390):
100 when the total duration is not positive, otherwise the elapsed
fraction as a percentage clamped to `[0, 100]`. -/
def calculateProgress (ti : TimerInfo) : ℚ :=
  if ti.durationSeconds ≤ 0 then 100
  else
    min 100 (max 0 ((ti.durationSeconds - ti.remainingSeconds) / ti.durationSeconds * 100))

/-! ## analytics.py — deploy sessions (`AnalyticsManager`, Phase 2) -/

/-- The `DeploySession` dataclass (analytics.py lines 49-68), with the
defaults of the source.  Timestamps (`session_start`, `session_end`,
`switch_timestamp`, ISO strings in the source) are unix seconds as `ℚ`. -/
structure DeploySession where
  sessionId : List Char
  projectName : List Char
  deployCommand : List Char
  sessionStart : ℚ
  sessionEnd : Option ℚ := none
  timerDurationSeconds : Int := 1800
  cloudPropagationTimeSeconds : Int := 1800
  tasksSuggested : Int := 0
  tasksAccepted : Int := 0
  switchButtonPressed : Bool := false
  switchTimestamp : Option ℚ := none
  estimatedTimeSavedSeconds : Int := 0
  sessionStatus : List Char := "active".toList
  productivityScore : Option ℚ := none
  deriving Repr, DecidableEq

/-- The session-relevant state of `AnalyticsManager`: the `active_sessions`
dict (`session_id -> DeploySession`, insertion-ordered) and the sessions
appended to the monthly `sessions_YYYY-MM.json` shards by `_save_session`.
`patternsRecorded` counts the records `_record_deploy_pattern` appends to
the deploy-pattern shard. -/
structure AnalyticsState where
  activeSessions : List (List Char × DeploySession) := []
  savedSessions : List DeploySession := []
  patternsRecorded : Nat := 0
  deriving Repr, DecidableEq

/-- Dict lookup in `active_sessions`. -/
def lookupSession (sid : List Char) : List (List Char × DeploySession) → Option DeploySession
  | [] => none
  | (k, v) :: rest => if k = sid then some v else lookupSession sid rest

/-- Dict deletion `del active_sessions[sid]`. -/
def eraseSession (sid : List Char) :
    List (List Char × DeploySession) → List (List Char × DeploySession)
  | [] => []
  | (k, v) :: rest =>
    if k = sid then eraseSession sid rest else (k, v) :: eraseSession sid rest

/-- In-place update of the session stored under `sid` (attribute mutation
on the dict entry). -/
def updateSession (sid : List Char) (f : DeploySession → DeploySession) :
    List (List Char × DeploySession) → List (List Char × DeploySession)
  | [] => []
  | (k, v) :: rest =>
    if k = sid then (k, f v) :: rest else (k, v) :: updateSession sid f rest

/-- `AnalyticsManager.start_deploy_session` (analytics.py lines 599-635):
build an active session whose `cloud_propagation_time_seconds` equals the
timer duration, store it under the generated id, record a deploy pattern,
return the id.  The id (`_generate_session_id`, an md5 of project, command
and `time.time()`) is passed in as `sid`. -/
def startDeploySession (now : ℚ) (sid projectName deployCommand : List Char)
    (timerDurationSeconds : Int) (st : AnalyticsState) : AnalyticsState × List Char :=
  let session : DeploySession :=
    { sessionId := sid
      projectName := projectName
      deployCommand := deployCommand
      sessionStart := now
      timerDurationSeconds := timerDurationSeconds
      cloudPropagationTimeSeconds := timerDurationSeconds
      sessionStatus := "active".toList }
  ({ st with
      activeSessions := st.activeSessions ++ [(sid, session)]
      patternsRecorded := st.patternsRecorded + 1 },
   sid)

/-- `AnalyticsManager._calculate_session_productivity_score`
(analytics.py lines 793-825): 0.3 base, up to 0.3 for the acceptance rate,
0.4 for a Switch press, 0.1 when the session lasted at least half the
timer duration, capped at 1. -/
def sessionProductivityScore (s : DeploySession) : ℚ :=
  let score : ℚ := 3/10
  let score := if s.tasksSuggested > 0
    then score + (s.tasksAccepted : ℚ) / (s.tasksSuggested : ℚ) * (3/10) else score
  let score := if s.switchButtonPressed then score + 4/10 else score
  let score :=
    match s.sessionEnd with
    | some e =>
      if e - s.sessionStart ≥ (s.timerDurationSeconds : ℚ) * (1/2) then score + 1/10 else score
    | none => score
  min 1 score

/-- The record update `end_deploy_session` performs on the found session
(analytics.py lines 649-665): close it with the given status, set the time
saved from the Switch flag, compute the productivity score. -/
def closeSession (now : ℚ) (status : List Char) (s : DeploySession) : DeploySession :=
  let s := { s with sessionEnd := some now, sessionStatus := status }
  let s :=
    if s.switchButtonPressed then
      { s with estimatedTimeSavedSeconds := s.cloudPropagationTimeSeconds }
    else { s with estimatedTimeSavedSeconds := 0 }
  { s with productivityScore := some (sessionProductivityScore s) }

/-- `AnalyticsManager.end_deploy_session` (analytics.py lines 637-683):
`False` when the id is not an active session; otherwise close the session,
append it to the monthly shard and drop it from `active_sessions`. -/
def endDeploySession (now : ℚ) (sid status : List Char) (st : AnalyticsState) :
    AnalyticsState × Bool :=
  match lookupSession sid st.activeSessions with
  | none => (st, false)
  | some s =>
    ({ st with
        activeSessions := eraseSession sid st.activeSessions
        savedSessions := st.savedSessions ++ [closeSession now status s] },
     true)

/-- Session resolution of `record_switch_button_press`
(analytics.py lines 692-702): by id when the id is truthy and present,
else the first active session of the project. -/
def findSwitchSession (sid : List Char) (projectName : Option (List Char))
    (st : AnalyticsState) : Option (List Char × DeploySession) :=
  match (if sid ≠ [] then lookupSession sid st.activeSessions else none) with
  | some s => some (sid, s)
  | none =>
    match projectName with
    | some p =>
      st.activeSessions.find?
        (fun kv => kv.2.projectName = p ∧ kv.2.sessionStatus = "active".toList)
    | none => none

/-- `AnalyticsManager.record_switch_button_press`
(analytics.py lines 685-729): `False` when no session is found; `True`
without mutation when the Switch was already pressed; otherwise set
`switch_button_pressed` and its timestamp and return `True`. -/
def recordSwitchButtonPress (now : ℚ) (sid : List Char)
    (projectName : Option (List Char)) (st : AnalyticsState) : AnalyticsState × Bool :=
  match findSwitchSession sid projectName st with
  | none => (st, false)
  | some (sid', s) =>
    if s.switchButtonPressed then (st, true)
    else
      ({ st with
          activeSessions := updateSession sid'
            (fun s => { s with switchButtonPressed := true, switchTimestamp := some now })
            st.activeSessions },
       true)

/-- `AnalyticsManager.get_active_session_for_project`
(analytics.py lines 1099-1106). -/
def getActiveSessionForProject (projectName : List Char) (st : AnalyticsState) :
    Option (List Char) :=
  (st.activeSessions.find?
    (fun kv => kv.2.projectName = projectName ∧ kv.2.sessionStatus = "active".toList)).map (·.1)

/-! ## notification.py — notification dispatcher (`NotificationManager`) -/

/-- A notification dict as built by `_send_notification`
(notification.py lines 246-257), restricted to the entries the response
and snooze paths read: `id`, `template`, `message`, `data.type`,
`data.project_name` and the suggestion id reachable through
`data.task.suggestion_id` / `data.suggestion_id`. -/
structure Notif where
  id : List Char
  template : List Char
  message : List Char
  dataType : List Char
  projectName : List Char
  suggestionId : Option (List Char) := none
  deriving Repr, DecidableEq

/-- A raised Python exception (the response pipeline only observes that
one was raised, never which). -/
inductive PyExc where
  | raised
  deriving Repr, DecidableEq

/-- State of `NotificationManager` together with the `AnalyticsManager` it
holds: the `active_notifications` dict, `notification_responses`, the
interactions recorded through `record_user_interaction`
(`suggestion_id, interaction_type` pairs), the pending snooze tasks
created by `_handle_snooze` (delay in seconds plus the copied
notification), the history list, and every notification fanned out to the
clients. -/
structure NotifState where
  active : List (List Char × Notif) := []
  responses : List (List Char × List Char) := []
  interactions : List (List Char × List Char) := []
  scheduledSnoozes : List (Int × Notif) := []
  history : List Notif := []
  emitted : List Notif := []
  analytics : AnalyticsState := {}
  deriving Repr, DecidableEq

/-- Dict lookup in `active_notifications`. -/
def lookupNotif (nid : List Char) : List (List Char × Notif) → Option Notif
  | [] => none
  | (k, v) :: rest => if k = nid then some v else lookupNotif nid rest

/-- Dict deletion from `active_notifications`. -/
def eraseNotif (nid : List Char) : List (List Char × Notif) → List (List Char × Notif)
  | [] => []
  | (k, v) :: rest => if k = nid then eraseNotif nid rest else (k, v) :: eraseNotif nid rest

/-- The `interaction_type_mapping` dict of `_record_interaction_analytics`
(notification.py lines 965-972), defaulted to `"ignored"`. -/
def interactionTypeFor (action : List Char) : List Char :=
  if action = "switch_now".toList then "accepted".toList
  else if action = "switch_to_task".toList then "accepted".toList
  else if action = "snooze".toList then "snoozed".toList
  else if action = "snooze_5min".toList then "snoozed".toList
  else if action = "snooze_10min".toList then "snoozed".toList
  else if action = "dismiss".toList then "dismissed".toList
  else "ignored".toList

/-- `NotificationManager._record_interaction_analytics`
(notification.py lines 937-993): only `task_suggestion` and
`unified_suggestion` notifications with a suggestion id produce an
interaction record. -/
def recordInteractionAnalytics (st : NotifState) (n : Notif) (action : List Char) :
    NotifState :=
  if n.dataType = "task_suggestion".toList ∨ n.dataType = "unified_suggestion".toList then
    match n.suggestionId with
    | none => st
    | some sugId =>
      { st with interactions := st.interactions ++ [(sugId, interactionTypeFor action)] }
  else st

/-- `NotificationManager._handle_task_switch` (notification.py
lines 601-666).  It records the first Switch press on the project's active
session (lines 616-618) and then raises before any further state change:
`from . import redirect` (line 639) is a relative import inside a module
the backend imports as top level, and even under a package layout the
acceptance step (line 648) calls
`timer.deploy_timer.record_task_acceptance_for_timer`, a method `DeployTimer`
(timer.py) never defines, so an `AttributeError` is raised on the success
path.  Either way the session's `tasks_accepted` is never incremented and
the redirection broadcast is skipped; the returned pair is the state after
the partial mutation plus the pending exception, which the caller
swallows. -/
def handleTaskSwitch (now : ℚ) (st : NotifState) (n : Notif) :
    NotifState × Option PyExc :=
  let st :=
    match getActiveSessionForProject n.projectName st.analytics with
    | some sid =>
      { st with
          analytics := (recordSwitchButtonPress now sid (some n.projectName) st.analytics).1 }
    | none => st
  (st, some PyExc.raised)

/-- `NotificationManager._handle_snooze` (notification.py lines 668-701):
5 or 10 minutes from the action name, else `additional_data` (default 5);
drop the notification from `active_notifications` and schedule
`_reschedule_notification` on a deep copy after `minutes * 60` seconds. -/
def handleSnooze (st : NotifState) (n : Notif) (action : List Char)
    (snoozeMinutesExtra : Option Int) : NotifState :=
  let minutes : Int :=
    if action = "snooze_5min".toList then 5
    else if action = "snooze_10min".toList then 10
    else snoozeMinutesExtra.getD 5
  { st with
      active := eraseNotif n.id st.active
      scheduledSnoozes := st.scheduledSnoozes ++ [(minutes * 60, n)] }

/-- `NotificationManager._process_notification_action`
(notification.py lines 561-599).  The `view_timer`, `start_new_timer`,
`view_logs` and `dismiss` arms only broadcast or drive the timer engine
and leave this state untouched; every exception from an arm is caught and
logged (lines 597-599). -/
def processNotificationAction (now : ℚ) (st : NotifState) (n : Notif)
    (action : List Char) (snoozeMinutesExtra : Option Int) : NotifState :=
  if action = "switch_now".toList ∧ n.dataType = "task_suggestion".toList then
    (handleTaskSwitch now st n).1
  else if action = "switch_to_task".toList ∧ n.dataType = "unified_suggestion".toList then
    (handleTaskSwitch now st n).1
  else if startsL "snooze".toList action then
    handleSnooze st n action snoozeMinutesExtra
  else st

/-- `NotificationManager.handle_notification_response`
(notification.py lines 511-559): unknown ids fail; otherwise store the
response, record the interaction, process the action, and drop the
notification from `active_notifications` unless the action was a snooze. -/
def handleNotificationResponse (now : ℚ) (st : NotifState) (nid action : List Char)
    (snoozeMinutesExtra : Option Int) : NotifState × Bool :=
  match lookupNotif nid st.active with
  | none => (st, false)
  | some n =>
    let st := { st with responses := st.responses ++ [(nid, action)] }
    let st := recordInteractionAnalytics st n action
    let st := processNotificationAction now st n action snoozeMinutesExtra
    let st :=
      if action = "snooze".toList ∨ action = "snooze_5min".toList ∨
          action = "snooze_10min".toList then st
      else { st with active := eraseNotif nid st.active }
    (st, true)

/-- The notification transform of `_reschedule_notification`
(notification.py lines 752-758), applied once the snooze delay elapsed:
fresh id `f"{template}_resend_{int(time.time() * 1000)}"` (the millisecond
clock is the `nowMs` parameter) and `" (Reminder)"` appended to the
message unless `"(Reminder)"` already occurs in it. -/
def applyReschedule (nowMs : Nat) (n : Notif) : Notif :=
  let n := { n with id := n.template ++ "_resend_".toList ++ Nat.toDigits 10 nowMs }
  if hasSub "(Reminder)".toList n.message then n
  else { n with message := n.message ++ " (Reminder)".toList }

/-- Delivery tail of `_reschedule_notification`
(notification.py lines 765-800): store the rebuilt notification in
`active_notifications`, append it to the history and fan it out. -/
def deliverSnoozed (nowMs : Nat) (st : NotifState) (n : Notif) : NotifState :=
  let n' := applyReschedule nowMs n
  { st with
      active := st.active ++ [(n'.id, n')]
      history := st.history ++ [n']
      emitted := st.emitted ++ [n'] }

/-! ## monitor.py — deploy log monitor (`DeployMonitor`) -/

/-- Python `float(s)` on the plain decimal literals the deploy log carries
(optional sign, digits, optional fractional part), idealised as the exact
decimal value in `ℚ`; `none` on anything else — the `except ValueError`
branch of `_parse_deploy_line`.  The value
`sign * (intPart + fracPart / 10 ^ k)` is built as one fraction through
`mkRat` so that it evaluates by kernel reduction. -/
def parseFloat? (l : List Char) : Option ℚ :=
  let signAndRest : (Int × List Char) :=
    match l with
    | [] => (1, [])
    | c :: r =>
      if c = '-' then (-1, r)
      else if c = '+' then (1, r)
      else (1, c :: r)
  let sign := signAndRest.1
  let cs := signAndRest.2
  let intPart := cs.takeWhile Char.isDigit
  let rest := cs.drop intPart.length
  match rest with
  | [] =>
    if intPart = [] then none
    else some (mkRat (sign * (digitsToNat intPart : Int)) 1)
  | c :: frac =>
    if c = '.' then
      let fracDigits := frac.takeWhile Char.isDigit
      if frac.drop fracDigits.length ≠ [] then none
      else if intPart = [] ∧ fracDigits = [] then none
      else
        some (mkRat
          (sign * ((digitsToNat intPart : Int) * (10 ^ fracDigits.length : Nat) +
            (digitsToNat fracDigits : Int)))
          (10 ^ fracDigits.length))
    else none

/-- A parsed deploy event (the dicts of `_parse_deploy_line`,
monitor.py lines 325-332 and 344-351; the derived `datetime` entry is the
timestamp itself). -/
inductive DeployEvent where
  | start (timestamp : ℚ) (command : List Char) (cwd : Option (List Char))
      (projectName : List Char)
  | complete (timestamp : ℚ) (command : List Char) (exitCode : Option Int)
      (projectName : List Char)
  deriving Repr, DecidableEq

/-- The regex `^(.*?)\s*\[CWD:\s*(.*?)\]$` of the `DEPLOY` arm
(monitor.py line 317): it matches iff the text ends in `]` and contains
`[CWD:`; both groups are `.strip()`ped by the caller, which absorbs the
`\s*` parts, so the command is everything before the first `[CWD:` and the
directory everything between it and the final `]`. -/
def cwdMatch (remaining : List Char) : Option (List Char × List Char) :=
  if endsL "]".toList remaining then
    match subIdx? "[CWD:".toList remaining with
    | some k => some (remaining.take k, (remaining.dropLast).drop (k + 5))
    | none => none
  else none

/-- Tail test for the `EXIT_CODE` regex: after `[EXIT_CODE:` the string
must continue with optional whitespace, at least one digit and a final
`]` ending the text; yields the parsed code. -/
def exitTail? (s : List Char) : Option Int :=
  let afterWs := s.dropWhile isPySpace
  let digits := afterWs.takeWhile Char.isDigit
  if digits = [] then none
  else if afterWs.drop digits.length = "]".toList then some (digitsToNat digits : Int)
  else none

/-- The regex `^(.*?)\s*\[EXIT_CODE:\s*(\d+)\]$` of the `DEPLOY_COMPLETE`
arm (monitor.py line 336): the lazy first group makes the match use the
first `[EXIT_CODE:` occurrence whose tail fits `\s*\d+\]$`; returns the
prefix length (the unstripped command) and the exit code. -/
def exitMatch : List Char → Option (Nat × Int)
  | [] => none
  | c :: cs =>
    if startsL "[EXIT_CODE:".toList (c :: cs) then
      match exitTail? ((c :: cs).drop 11) with
      | some code => some (0, code)
      | none => (exitMatch cs).map (fun p => (p.1 + 1, p.2))
    else (exitMatch cs).map (fun p => (p.1 + 1, p.2))

/-- `DeployMonitor._parse_deploy_line` (monitor.py lines 294-357):
strip, split on at most two spaces, need three parts, float timestamp,
event keyword with trailing colons removed, then the `DEPLOY` /
`DEPLOY_COMPLETE` arms; anything else is skipped (`None`). -/
def parseDeployLine (line projectName : List Char) : Option DeployEvent :=
  match pySplitSp2 (pyStrip line) with
  | [tsStr, typeStr, remaining] =>
    let eventType := rstripColons typeStr
    match parseFloat? tsStr with
    | none => none
    | some ts =>
      if eventType = "DEPLOY".toList then
        match cwdMatch remaining with
        | some (cmd, cwd) =>
          some (.start ts (pyStrip cmd) (some (pyStrip cwd)) projectName)
        | none => some (.start ts (pyStrip remaining) none projectName)
      else if eventType = "DEPLOY_COMPLETE".toList then
        match exitMatch remaining with
        | some (k, code) =>
          some (.complete ts (pyStrip (remaining.take k)) (some code) projectName)
        | none => some (.complete ts (pyStrip remaining) none projectName)
      else none
  | _ => none

/-- `DeployMonitor._parse_deploy_events` (monitor.py lines 276-292):
strip the chunk, split into lines, skip blank lines, parse the rest. -/
def parseDeployEvents (content projectName : List Char) : List DeployEvent :=
  (splitChar '\n' (pyStrip content)).filterMap
    (fun line => if pyStrip line = [] then none else parseDeployLine line projectName)

/-- `DeployMonitor._check_project_for_deploys` (monitor.py lines 239-274)
on a file with the given full content: nothing to do unless the file grew
past `last_position`; otherwise read the new slice, advance the position
to the file size and parse the slice.  Returns the new position and the
emitted events. -/
def checkProjectForDeploys (fileContent : List Char) (lastPosition : Nat)
    (projectName : List Char) : Nat × List DeployEvent :=
  let currentSize := fileContent.length
  if currentSize ≤ lastPosition then (lastPosition, [])
  else (currentSize, parseDeployEvents (fileContent.drop lastPosition) projectName)

/-! ## graph.py — orchestrator (`DeployBotWebSocketServer`) -/

/-- The orchestration state a deploy event touches: the flags of
`DeployBotState` (graph.py lines 54-66), the timer map, the analytics
manager, the notification templates sent through `notification_manager`
and the unified-suggestion tasks scheduled by `on_deploy_detected`. -/
structure SysState where
  deployDetected : Bool := false
  currentProject : Option (List Char) := none
  timers : Timers := []
  analytics : AnalyticsState := {}
  notificationsSent : List (List Char) := []
  scheduledUnified : List (List Char) := []
  deriving Repr, DecidableEq

/-- `DeployBotWebSocketServer.on_deploy_detected` (graph.py lines 98-147):
set the state flags, start a timer with the hard-coded
`timer_duration = 1800` (line 114 — the project config is never
consulted), then either schedule the unified notification (tasks
available) or send `deploy_detected` immediately.  No analytics call is
made: `AnalyticsManager.start_deploy_session` has no caller in the
backend, so `active_sessions` is untouched. -/
def onDeployDetected (now : ℚ) (st : SysState) (projectName deployCommand : List Char)
    (tasksAvailable : Bool) : SysState :=
  let timerDuration : ℚ := 1800
  { st with
      deployDetected := true
      currentProject := some projectName
      timers := startTimer now projectName timerDuration (some deployCommand) st.timers
      notificationsSent :=
        st.notificationsSent ++
          (if tasksAvailable then [] else ["deploy_detected".toList])
      scheduledUnified :=
        st.scheduledUnified ++ (if tasksAvailable then [projectName] else []) }

/-- `DeployBotWebSocketServer.on_deploy_completed`
(graph.py lines 268-294): clear the deploy flag, log and broadcast; the
timer map and the analytics state are deliberately left untouched (the
`DO NOT stop the timer` comment, lines 278-280). -/
def onDeployCompleted (st : SysState) (projectName deployCommand : List Char)
    (exitCode : Int) : SysState :=
  { st with deployDetected := false }

/-- The timer callbacks registered against `DeployTimer` by the running
system.  `initialize_modules` (graph.py lines 82-96) wires the deploy
callbacks and the websocket servers but never calls
`DeployTimer.add_timer_callback`, and no other module does either, so the
`timer_callbacks` list stays empty. -/
def registeredTimerCallbacks : List (SysState → SysState) := []

/-- `DeployTimer._handle_timer_expiry` (timer.py lines 308-324) at the
system level: notify every registered timer callback of `timer_expired`,
then (after the 5 s grace) delete the timer from the map.  With the empty
callback list of `initialize_modules` the only effect is the deletion. -/
def handleTimerExpirySystem (st : SysState) (projectName : List Char) : SysState :=
  let st := registeredTimerCallbacks.foldl (fun s f => f s) st
  { st with timers := eraseTimer projectName st.timers }

/-! ## Concrete inputs of the end-to-end scenarios -/

/-- The deploy-log file of scenario 1 (spec §8). -/
def scenarioLogContent : List Char :=
  ("1700000000.0 DEPLOY: firebase deploy [CWD: /p]\n" ++
   "1700000005.5 DEPLOY_COMPLETE: firebase deploy [EXIT_CODE: 0]\n").toList

/-- The TODO.md file of scenario 2 (spec §8). -/
def scenarioTodoContent : List Char :=
  ("## Pending Tasks\n" ++
   "- [ ] Write product video script #short #creative\n" ++
   "- [ ] Review Firebase rules #backend #research\n" ++
   "- [x] Initialize project\n").toList

/-! ## Supporting lemmas -/

theorem lookupTimer_erase_append (p : List Char) (x : TimerInfo) :
    ∀ l : Timers, lookupTimer p (eraseTimer p l ++ [(p, x)]) = some x := by
  intro l
  induction l with
  | nil => simp [eraseTimer, lookupTimer]
  | cons kv rest ih =>
    by_cases h : kv.1 = p
    · simpa [eraseTimer, h] using ih
    · simp [eraseTimer, h, lookupTimer, ih]

theorem lookupSession_update (sid : List Char) (f : DeploySession → DeploySession) :
    ∀ l, lookupSession sid (updateSession sid f l) = (lookupSession sid l).map f := by
  intro l
  induction l with
  | nil => simp [updateSession, lookupSession]
  | cons kv rest ih =>
    by_cases h : kv.1 = sid
    · simp [updateSession, lookupSession, h]
    · simp [updateSession, lookupSession, h, ih]

theorem lookupNotif_erase (nid : List Char) :
    ∀ l, lookupNotif nid (eraseNotif nid l) = none := by
  intro l
  induction l with
  | nil => simp [eraseNotif, lookupNotif]
  | cons kv rest ih =>
    by_cases h : kv.1 = nid
    · simpa [eraseNotif, h] using ih
    · simp [eraseNotif, h, lookupNotif, ih]

theorem startsL_self_append (p rest : List Char) : startsL p (p ++ rest) = true := by
  induction p with
  | nil => simp [startsL]
  | cons c cs ih => simp [startsL, ih]

theorem hasSub_of_startsL (needle hay : List Char) (h : startsL needle hay = true) :
    hasSub needle hay = true := by
  cases hay with
  | nil =>
    cases needle with
    | nil => simp [hasSub, subIdx?, startsL]
    | cons n ns => simp [startsL] at h
  | cons c cs => simp [hasSub, subIdx?, h]

theorem hasSub_cons (needle : List Char) (c : Char) (cs : List Char)
    (h : hasSub needle cs = true) : hasSub needle (c :: cs) = true := by
  simp only [hasSub, subIdx?]
  split
  · simp
  · rcases hx : subIdx? needle cs with _ | k
    · rw [hasSub, hx] at h; simp at h
    · simp [hx]

theorem hasSub_middle (needle a b : List Char) :
    hasSub needle (a ++ (needle ++ b)) = true := by
  induction a with
  | nil =>
    rw [List.nil_append]
    exact hasSub_of_startsL needle (needle ++ b) (startsL_self_append needle b)
  | cons c cs ih =>
    rw [List.cons_append]
    exact hasSub_cons needle c (cs ++ (needle ++ b)) ih

theorem mem_insertDescBy (key : Task → Int) (a x : Task) :
    ∀ l, x ∈ insertDescBy key a l ↔ x = a ∨ x ∈ l := by
  intro l
  induction l with
  | nil => simp [insertDescBy]
  | cons y ys ih =>
    simp only [insertDescBy]
    split
    · simp [List.mem_cons]
    · simp [List.mem_cons, ih]
      tauto

theorem mem_sortByDesc (key : Task → Int) (x : Task) :
    ∀ l, x ∈ sortByDesc key l → x ∈ l := by
  have main : ∀ (l acc : List Task),
      x ∈ l.foldl (fun acc y => insertDescBy key y acc) acc → x ∈ acc ∨ x ∈ l := by
    intro l
    induction l with
    | nil => intro acc h; exact Or.inl h
    | cons y ys ih =>
      intro acc h
      rcases ih (insertDescBy key y acc) h with h' | h'
      · rcases (mem_insertDescBy key y x acc).mp h' with h'' | h''
        · exact Or.inr (by simp [h''])
        · exact Or.inl h''
      · exact Or.inr (by simp [h'])
  intro l h
  rcases main l [] h with h' | h'
  · exact absurd h' (List.not_mem_nil x)
  · exact h'

/-! ## Claim theorems -/

/-- C10: `_calculate_progress` is total and always lands in `[0, 100]`:
any timer info with a non-positive duration (the duration-0 timer
included) yields exactly 100 without a division, and a positive duration
yields `100 * (duration - remaining) / duration` clamped to `[0, 100]`. -/
theorem calculateProgress_total_and_clamped (ti : TimerInfo) :
    (ti.durationSeconds ≤ 0 → calculateProgress ti = 100) ∧
    (0 < ti.durationSeconds →
      calculateProgress ti =
        min 100 (max 0
          (100 * (ti.durationSeconds - ti.remainingSeconds) / ti.durationSeconds))) ∧
    0 ≤ calculateProgress ti ∧ calculateProgress ti ≤ 100 := by
  unfold calculateProgress
  by_cases h : ti.durationSeconds ≤ 0
  · simp [h]
  · rw [if_neg h]
    push_neg at h
    refine ⟨fun h2 => absurd h2 (not_le.mpr h), fun _ => ?_, ?_, ?_⟩
    · have harith :
          (ti.durationSeconds - ti.remainingSeconds) / ti.durationSeconds * 100 =
            100 * (ti.durationSeconds - ti.remainingSeconds) / ti.durationSeconds := by
        ring
      rw [harith]
    · exact le_min (by norm_num) (le_max_left 0 _)
    · exact min_le_left 100 _

/-- C10 witness: the duration-0 timer reports 100 %, and a 1800 s timer
with 1770 s remaining reports the clamped elapsed fraction. -/
theorem calculateProgress_total_and_clamped_witness :
    calculateProgress
      { projectName := "P".toList, startTime := 0, endTime := 0,
        durationSeconds := 0, remainingSeconds := 5, deployCommand := none,
        status := "running".toList, paused := false, pauseTime := none,
        pauseDuration := 0 } = 100 ∧
    calculateProgress
      { projectName := "P".toList, startTime := 0, endTime := 1800,
        durationSeconds := 1800, remainingSeconds := 1770, deployCommand := none,
        status := "running".toList, paused := false, pauseTime := none,
        pauseDuration := 0 } =
      min 100 (max 0 (100 * ((1800 : ℚ) - 1770) / 1800)) :=
  ⟨(calculateProgress_total_and_clamped _).1 (by norm_num),
   (calculateProgress_total_and_clamped _).2.1 (by norm_num)⟩

set_option maxRecDepth 100000

/-- C9: a monitor attached at position 0 to the scenario-1 log emits
exactly the deploy-start event (timestamp 1700000000.0, command
`firebase deploy`, cwd `/p`) followed by the deploy-complete event
(timestamp 1700000005.5, same command, exit code 0), and the stored
position advances to the file size. -/
theorem monitor_scenario_events :
    (checkProjectForDeploys scenarioLogContent 0 "P".toList).1 =
      scenarioLogContent.length ∧
    (checkProjectForDeploys scenarioLogContent 0 "P".toList).2 =
      [DeployEvent.start (mkRat 1700000000 1) "firebase deploy".toList
        (some "/p".toList) "P".toList,
       DeployEvent.complete (mkRat 3400000011 2) "firebase deploy".toList
        (some 0) "P".toList] := by
  constructor <;> decide

/-- C6 counterexample: on the scenario-2 TODO input the parser does
produce 3 tasks, but task 1 has priority 6 (not 7), and task 2 is mapped
to app `Terminal` with estimated duration 15 (not `Safari` / 45), so the
claim as stated is false. -/
theorem todo_scenario_claim_false :
    ¬ ((parseTodoFile scenarioTodoContent).length = 3 ∧
       ((parseTodoFile scenarioTodoContent).get? 0).map
          (fun t => (t.app, t.priority, t.estimatedDuration)) =
         some ("Figma".toList, 7, 20) ∧
       ((parseTodoFile scenarioTodoContent).get? 1).map
          (fun t => (t.app, t.priority, t.estimatedDuration)) =
         some ("Safari".toList, 5, 45) ∧
       ((parseTodoFile scenarioTodoContent).get? 2).map (·.completed) = some true) := by
  decide

/-- C6 amended: parsing the scenario-2 TODO input yields exactly 3 tasks;
task 1 has app `Figma`, priority 6 and estimated duration 20 minutes
(the `#short` tag adds 1 to the base 5 and `#creative` adds nothing);
task 2 has app `Terminal` (its first tag `#backend` wins over
`#research`), priority 5 and estimated duration 15 minutes (the keyword
`review`); task 3 has `completed = true`. -/
theorem todo_scenario_parse :
    (parseTodoFile scenarioTodoContent).length = 3 ∧
    ((parseTodoFile scenarioTodoContent).get? 0).map
        (fun t => (t.app, t.priority, t.estimatedDuration, t.completed)) =
      some ("Figma".toList, 6, 20, false) ∧
    ((parseTodoFile scenarioTodoContent).get? 1).map
        (fun t => (t.app, t.priority, t.estimatedDuration, t.completed)) =
      some ("Terminal".toList, 5, 15, false) ∧
    ((parseTodoFile scenarioTodoContent).get? 2).map (·.completed) = some true := by
  refine ⟨?_, ?_, ?_, ?_⟩ <;> decide

/-- C1 counterexample: handling a DeployStart from an idle state leaves
`active_sessions` empty — no analytics deploy session is opened for the
project, refuting "for every DeployStart handled, an active session for
that project exists afterwards". -/
theorem deploy_start_opens_no_session :
    (onDeployDetected 0 {} "P".toList "firebase deploy".toList false).analytics.activeSessions
        = [] ∧
    getActiveSessionForProject "P".toList
      (onDeployDetected 0 {} "P".toList "firebase deploy".toList false).analytics = none := by
  constructor <;> decide

/-- C1 amended: on a DeployStart the orchestrator starts a timer for the
project with the fixed duration 1800 s (the project config is never
consulted) and leaves the analytics state — in particular
`active_sessions` — unchanged; `start_deploy_session` is never invoked. -/
theorem deploy_start_timer_1800_no_session (now : ℚ) (st : SysState)
    (p cmd : List Char) (avail : Bool) :
    (onDeployDetected now st p cmd avail).analytics = st.analytics ∧
    lookupTimer p (onDeployDetected now st p cmd avail).timers =
      some
        { projectName := p, startTime := now, endTime := now + 1800,
          durationSeconds := 1800, remainingSeconds := 1800,
          deployCommand := some cmd, status := "running".toList,
          paused := false, pauseTime := none, pauseDuration := 0 } := by
  refine ⟨rfl, ?_⟩
  exact lookupTimer_erase_append p _ st.timers

/-- C2 counterexample: with an active session for project `P` on the
books, the system's handling of a timer expiry emits no notification
(`notificationsSent` stays empty) and leaves the session active and
unsaved — `end_session` is not invoked, refuting the claim. -/
theorem timer_expiry_emits_nothing_ends_nothing :
    (handleTimerExpirySystem
        { analytics :=
            { activeSessions :=
                [("s1".toList,
                  { sessionId := "s1".toList, projectName := "P".toList,
                    deployCommand := "firebase deploy".toList, sessionStart := 0 })] } }
        "P".toList).notificationsSent = [] ∧
    (lookupSession "s1".toList
        (handleTimerExpirySystem
          { analytics :=
              { activeSessions :=
                  [("s1".toList,
                    { sessionId := "s1".toList, projectName := "P".toList,
                      deployCommand := "firebase deploy".toList, sessionStart := 0 })] } }
          "P".toList).analytics.activeSessions).map (·.sessionStatus) =
      some "active".toList ∧
    (handleTimerExpirySystem
        { analytics :=
            { activeSessions :=
                [("s1".toList,
                  { sessionId := "s1".toList, projectName := "P".toList,
                    deployCommand := "firebase deploy".toList, sessionStart := 0 })] } }
        "P".toList).analytics.savedSessions = [] := by
  refine ⟨?_, ?_, ?_⟩ <;> decide

/-- C2 amended: when a running timer reaches 0 the update loop marks it
expired and `_handle_timer_expiry` notifies the registered timer
callbacks and then drops the timer; because `initialize_modules`
registers no timer callback (and `end_deploy_session` has no caller),
the system-level effect is only the timer deletion — notifications and
analytics are unchanged, so no `timer_expiry` notification is emitted and
the active session is not ended. -/
theorem timer_expiry_only_deletes_timer (st : SysState) (p : List Char) :
    handleTimerExpirySystem st p = { st with timers := eraseTimer p st.timers } ∧
    (handleTimerExpirySystem st p).notificationsSent = st.notificationsSent ∧
    (handleTimerExpirySystem st p).analytics = st.analytics :=
  ⟨rfl, rfl, rfl⟩

/-- C3: handling a DEPLOY_COMPLETE 30 s into a 1800 s timer leaves the
timer map untouched — the entry, its `end_time` and its `running` status
are unchanged; the tick at t = 30 shows 1770 s remaining and expires
nothing, and the tick at t = 1800 moves the timer to `expired` and
reports it for expiry handling. -/
theorem deploy_complete_does_not_stop_timer (p cmd : List Char) (ec : Int) :
    (onDeployCompleted { timers := startTimer 0 p 1800 (some cmd) [], deployDetected := true }
        p cmd ec).timers = startTimer 0 p 1800 (some cmd) [] ∧
    (lookupTimer p (startTimer 0 p 1800 (some cmd) [])).map
        (fun ti => (ti.status, ti.endTime)) = some ("running".toList, 1800) ∧
    (lookupTimer p (tickAllTimers 30 (startTimer 0 p 1800 (some cmd) [])).1).map
        (fun ti => (ti.status, ti.remainingSeconds, ti.endTime)) =
      some ("running".toList, 1770, 1800) ∧
    (tickAllTimers 30 (startTimer 0 p 1800 (some cmd) [])).2 = [] ∧
    (lookupTimer p
        (tickAllTimers 1800 (tickAllTimers 30 (startTimer 0 p 1800 (some cmd) [])).1).1).map
        (fun ti => (ti.status, ti.remainingSeconds)) = some ("expired".toList, 0) ∧
    (tickAllTimers 1800 (tickAllTimers 30 (startTimer 0 p 1800 (some cmd) [])).1).2 = [p] := by
  refine ⟨rfl, ?_, ?_, ?_, ?_, ?_⟩ <;>
    simp [startTimer, eraseTimer, tickAllTimers, tickTimerInfo, tickExpires, lookupTimer] <;>
    norm_num

/-- C5: on any active session, `record_switch_button_press` succeeds and
leaves `switch_button_pressed` true; a second call is a no-op that still
returns success; and `end_deploy_session` saves the session with
`estimated_time_saved_seconds` equal to `cloud_propagation_time_seconds`
when the Switch was pressed and 0 otherwise. -/
theorem switch_once_and_time_saved :
    (∀ (now now2 : ℚ) (sid : List Char) (s : DeploySession) (st : AnalyticsState),
      sid ≠ [] → lookupSession sid st.activeSessions = some s →
      (recordSwitchButtonPress now sid none st).2 = true ∧
      (lookupSession sid
          (recordSwitchButtonPress now sid none st).1.activeSessions).map
        (·.switchButtonPressed) = some true ∧
      recordSwitchButtonPress now2 sid none (recordSwitchButtonPress now sid none st).1 =
        ((recordSwitchButtonPress now sid none st).1, true)) ∧
    (∀ (now : ℚ) (sid status : List Char) (s : DeploySession) (st : AnalyticsState),
      lookupSession sid st.activeSessions = some s →
      (endDeploySession now sid status st).1.savedSessions =
        st.savedSessions ++ [closeSession now status s] ∧
      (closeSession now status s).estimatedTimeSavedSeconds =
        (if s.switchButtonPressed then s.cloudPropagationTimeSeconds else 0)) := by
  constructor
  · intro now now2 sid s st hsid hlook
    by_cases hp : s.switchButtonPressed
    · simp [recordSwitchButtonPress, findSwitchSession, hsid, hlook, hp]
    · simp [recordSwitchButtonPress, findSwitchSession, hsid, hlook, hp,
        lookupSession_update]
  · intro now sid status s st hlook
    constructor
    · simp [endDeploySession, hlook]
    · by_cases hp : s.switchButtonPressed <;> simp [closeSession, hp]

/-- The session and analytics state used to witness C5. -/
def c5Session : DeploySession :=
  { sessionId := "s1".toList, projectName := "P".toList,
    deployCommand := "firebase deploy".toList, sessionStart := 0 }

def c5State : AnalyticsState :=
  { activeSessions := [("s1".toList, c5Session)] }

/-- C5 witness: the theorem applied to a concrete single-session state. -/
theorem switch_once_and_time_saved_witness :
    (recordSwitchButtonPress 5 "s1".toList none c5State).2 = true ∧
    (lookupSession "s1".toList
        (recordSwitchButtonPress 5 "s1".toList none c5State).1.activeSessions).map
      (·.switchButtonPressed) = some true ∧
    recordSwitchButtonPress 6 "s1".toList none
        (recordSwitchButtonPress 5 "s1".toList none c5State).1 =
      ((recordSwitchButtonPress 5 "s1".toList none c5State).1, true) ∧
    (endDeploySession 9 "s1".toList "completed".toList c5State).1.savedSessions =
      c5State.savedSessions ++ [closeSession 9 "completed".toList c5Session] ∧
    (closeSession 9 "completed".toList c5Session).estimatedTimeSavedSeconds =
      (if c5Session.switchButtonPressed then c5Session.cloudPropagationTimeSeconds else 0) := by
  have h1 := switch_once_and_time_saved.1 5 6 "s1".toList c5Session c5State
    (by decide) (by decide)
  have h2 := switch_once_and_time_saved.2 9 "s1".toList "completed".toList c5Session c5State
    (by decide)
  exact ⟨h1.1, h1.2.1, h1.2.2, h2.1, h2.2⟩

/-- The task-suggestion notification and combined state used for C4. -/
def c4Notif : Notif :=
  { id := "n1".toList, template := "task_suggestion".toList,
    message := "While waiting for propagation: write docs".toList,
    dataType := "task_suggestion".toList, projectName := "P".toList }

def c4State : NotifState :=
  { active := [("n1".toList, c4Notif)],
    analytics :=
      { activeSessions :=
          [("s1".toList,
            { sessionId := "s1".toList, projectName := "P".toList,
              deployCommand := "firebase deploy".toList, sessionStart := 0 })] } }

/-- C4: two successive `respond(n1, "switch_now")` calls on the same task
notification.  The first succeeds and records the Switch press on the
active session, but `tasks_accepted` stays 0: the acceptance step calls
`DeployTimer.record_task_acceptance_for_timer`, which timer.py never
defines (and reaches it through a relative import that fails in the
backend's top-level import layout), and the raised exception is swallowed
by `_process_notification_action`.  The second call returns `False`, not
success, because the first call removed the notification from
`active_notifications`. -/
theorem switch_now_twice_executes :
    (handleNotificationResponse 10 c4State "n1".toList "switch_now".toList none).2 = true ∧
    (lookupSession "s1".toList
        (handleNotificationResponse 10 c4State "n1".toList "switch_now".toList
          none).1.analytics.activeSessions).map
      (fun s => (s.switchButtonPressed, s.tasksAccepted)) = some (true, 0) ∧
    (handleNotificationResponse 20
        (handleNotificationResponse 10 c4State "n1".toList "switch_now".toList none).1
        "n1".toList "switch_now".toList none).2 = false ∧
    (handleNotificationResponse 20
        (handleNotificationResponse 10 c4State "n1".toList "switch_now".toList none).1
        "n1".toList "switch_now".toList none).1 =
      (handleNotificationResponse 10 c4State "n1".toList "switch_now".toList none).1 := by
  refine ⟨?_, ?_, ?_, ?_⟩ <;> decide

theorem endsL_append (p m : List Char) : endsL p (m ++ p) = true := by
  unfold endsL
  rw [List.reverse_append]
  exact startsL_self_append p.reverse m.reverse

theorem applyReschedule_id (ms : Nat) (n : Notif) :
    (applyReschedule ms n).id = n.template ++ "_resend_".toList ++ Nat.toDigits 10 ms := by
  unfold applyReschedule
  dsimp only
  split <;> rfl

theorem applyReschedule_message_fresh (ms : Nat) (n : Notif)
    (h : hasSub "(Reminder)".toList n.message = false) :
    (applyReschedule ms n).message = n.message ++ " (Reminder)".toList := by
  unfold applyReschedule
  dsimp only
  rw [if_neg (by rw [h]; simp)]

theorem applyReschedule_message_kept (ms : Nat) (n : Notif)
    (h : hasSub "(Reminder)".toList n.message = true) :
    (applyReschedule ms n).message = n.message := by
  unfold applyReschedule
  dsimp only
  rw [if_pos h]

/-- C8: snoozing an active notification via `snooze_5min` succeeds,
removes its id from `active_notifications` and schedules a re-emission
after `5 * 60 = 300` seconds; the rescheduled notification carries a new
id and its message gains the `" (Reminder)"` suffix; rescheduling that
reminder again (after a second snooze) leaves the message unchanged, so
the suffix is never doubled; delivery fans the rebuilt notification out. -/
theorem snooze_reschedule_chain (now : ℚ) (st : NotifState) (n : Notif) (ms1 ms2 : Nat)
    (h1 : lookupNotif n.id st.active = some n)
    (h2 : hasSub "(Reminder)".toList n.message = false)
    (h3 : hasSub "_resend_".toList n.id = false) :
    (handleNotificationResponse now st n.id "snooze_5min".toList none).2 = true ∧
    lookupNotif n.id
      (handleNotificationResponse now st n.id "snooze_5min".toList none).1.active = none ∧
    (300, n) ∈
      (handleNotificationResponse now st n.id "snooze_5min".toList none).1.scheduledSnoozes ∧
    endsL " (Reminder)".toList (applyReschedule ms1 n).message = true ∧
    (applyReschedule ms1 n).id ≠ n.id ∧
    (applyReschedule ms2 (applyReschedule ms1 n)).message = (applyReschedule ms1 n).message ∧
    (deliverSnoozed ms1 (handleNotificationResponse now st n.id "snooze_5min".toList none).1
        n).emitted =
      (handleNotificationResponse now st n.id "snooze_5min".toList none).1.emitted ++
        [applyReschedule ms1 n] := by
  have e1 : ("snooze_5min".toList = "switch_now".toList) = False := by decide
  have e2 : ("snooze_5min".toList = "switch_to_task".toList) = False := by decide
  have e3 : startsL "snooze".toList "snooze_5min".toList = true := by decide
  have e4 : ("snooze_5min".toList = "snooze".toList) = False := by decide
  have e5 : ("snooze_5min".toList = "snooze_10min".toList) = False := by decide
  have e7 : ((5 : Int) * 60) = 300 := by norm_num
  refine ⟨?_, ?_, ?_, ?_, ?_, ?_, ?_⟩
  · simp [handleNotificationResponse, h1]
  · simp only [handleNotificationResponse, h1, processNotificationAction, handleSnooze,
      e1, e2, e3, e4, e5, false_and, if_false, if_true, ite_true, ite_false,
      eq_self_iff_true, true_or, or_true, if_neg, not_false_iff]
    simp
    exact lookupNotif_erase n.id _
  · simp only [handleNotificationResponse, h1, processNotificationAction, handleSnooze,
      e1, e2, e3, e4, e5, e7, false_and, if_false, if_true, ite_true, ite_false]
    simp
  · rw [applyReschedule_message_fresh ms1 n h2]
    exact endsL_append _ _
  · rw [applyReschedule_id ms1 n]
    intro heq
    have hocc := hasSub_middle "_resend_".toList n.template (Nat.toDigits 10 ms1)
    rw [List.append_assoc] at heq
    rw [heq] at hocc
    rw [hocc] at h3
    simp at h3
  · apply applyReschedule_message_kept
    rw [applyReschedule_message_fresh ms1 n h2]
    have hocc := hasSub_middle "(Reminder)".toList (n.message ++ [' ']) []
    simpa [List.append_assoc] using hocc
  · rfl

/-- The notification state used to witness C8. -/
def c8Notif : Notif :=
  { id := "task_suggestion_1000".toList, template := "task_suggestion".toList,
    message := "While waiting for propagation: write docs".toList,
    dataType := "task_suggestion".toList, projectName := "P".toList }

def c8State : NotifState :=
  { active := [("task_suggestion_1000".toList, c8Notif)] }

/-- C8 witness: the snooze chain on a concrete active notification. -/
theorem snooze_reschedule_chain_witness :
    (handleNotificationResponse 0 c8State c8Notif.id "snooze_5min".toList none).2 = true ∧
    lookupNotif c8Notif.id
      (handleNotificationResponse 0 c8State c8Notif.id
        "snooze_5min".toList none).1.active = none ∧
    (300, c8Notif) ∈
      (handleNotificationResponse 0 c8State c8Notif.id
        "snooze_5min".toList none).1.scheduledSnoozes ∧
    endsL " (Reminder)".toList (applyReschedule 301000 c8Notif).message = true ∧
    (applyReschedule 301000 c8Notif).id ≠ c8Notif.id ∧
    (applyReschedule 602000 (applyReschedule 301000 c8Notif)).message =
      (applyReschedule 301000 c8Notif).message ∧
    (deliverSnoozed 301000
        (handleNotificationResponse 0 c8State c8Notif.id "snooze_5min".toList none).1
        c8Notif).emitted =
      (handleNotificationResponse 0 c8State c8Notif.id
        "snooze_5min".toList none).1.emitted ++
        [applyReschedule 301000 c8Notif] :=
  snooze_reschedule_chain 0 c8State c8Notif 301000 602000
    (by decide) (by decide) (by decide)

theorem adjustTaskPriority_fields (ctx : Ctx) (hour : Nat) (t : Task) :
    (adjustTaskPriority ctx hour t).tags = t.tags ∧
    (adjustTaskPriority ctx hour t).completed = t.completed ∧
    (adjustTaskPriority ctx hour t).estimatedDuration = t.estimatedDuration :=
  ⟨rfl, rfl, rfl⟩

theorem heuristicScoreTask_fields (ctx : Ctx) (t : Task) :
    (heuristicScoreTask ctx t).tags = t.tags ∧
    (heuristicScoreTask ctx t).completed = t.completed ∧
    (heuristicScoreTask ctx t).estimatedDuration = t.estimatedDuration :=
  ⟨rfl, rfl, rfl⟩

theorem mem_filterTasksByContext {ctx : Ctx} {hour : Nat} {t : Task} {l : List Task}
    (h : t ∈ filterTasksByContext ctx hour l) :
    ∃ u ∈ l, contextKeep ctx u = true ∧ t = adjustTaskPriority ctx hour u := by
  unfold filterTasksByContext at h
  have h' := mem_sortByDesc _ _ _ h
  rcases List.mem_map.mp h' with ⟨u, hu, rfl⟩
  rcases List.mem_filter.mp hu with ⟨hul, hkeep⟩
  exact ⟨u, hul, hkeep, rfl⟩

theorem contextKeep_props {ctx : Ctx} {t : Task} (h : contextKeep ctx t = true) :
    (ctx.deployActive = true → "#backend".toList ∉ t.tags.map toLowerL) ∧
    (ctx.timerDuration ≤ 900 →
      "#long".toList ∉ t.tags.map toLowerL ∧ t.estimatedDuration ≤ 60) := by
  unfold contextKeep at h
  dsimp only at h
  split at h
  · exact absurd h (by simp)
  · next hc1 =>
    split at h
    · exact absurd h (by simp)
    · next hc2 =>
      refine ⟨fun hda hmem => hc1 ⟨hda, hmem⟩, fun hle => ⟨?_, ?_⟩⟩
      · exact fun hmem => hc2 ⟨hle, Or.inl hmem⟩
      · by_contra hgt
        push_neg at hgt
        exact hc2 ⟨hle, Or.inr hgt⟩

theorem selectTaskHeuristic_mem {ctx : Ctx} {l : List Task} {t : Task}
    (h : selectTaskHeuristic ctx l = some t) :
    ∃ u ∈ l, t = heuristicScoreTask ctx u := by
  unfold selectTaskHeuristic at h
  split at h
  · exact absurd h (by simp)
  · next x xs hsort =>
    injection h with h
    subst h
    have hx : x ∈ sortByDesc (·.heuristicScore) (l.map (heuristicScoreTask ctx)) := by
      rw [hsort]; exact List.mem_cons_self x xs
    rcases List.mem_map.mp (mem_sortByDesc _ _ _ hx) with ⟨u, hu, rfl⟩
    exact ⟨u, hu, rfl⟩

theorem parseLlmSelection_mem {resp : List Char} {l : List Task} {t : Task}
    (h : parseLlmSelection resp l = some t) : t ∈ l := by
  unfold parseLlmSelection at h
  split at h
  · exact absurd h (by simp)
  · split at h
    · next u hfind =>
      injection h with h
      subst h
      exact List.mem_of_find?_eq_some hfind
    · exact List.mem_of_find?_eq_some h

/-- C7: whatever the TODO catalog, the context, the wall-clock hour and
the LLM adapter's response, a task returned by `select_best_task` is not
completed and satisfies every active context filter: during a deploy it
carries no `#backend` tag, and with a timer of at most 900 s it carries no
`#long` tag and its estimated duration is at most 60 minutes. -/
theorem selector_returns_pending_filtered (llmEnabled : Bool) (ctx : Ctx) (hour : Nat)
    (todo : List Char) (llmResp : Option (List Char)) (t : Task)
    (h : selectBestTask llmEnabled ctx hour todo llmResp = some t) :
    t.completed = false ∧
    (ctx.deployActive = true → "#backend".toList ∉ t.tags.map toLowerL) ∧
    (ctx.timerDuration ≤ 900 →
      "#long".toList ∉ t.tags.map toLowerL ∧ t.estimatedDuration ≤ 60) := by
  unfold selectBestTask at h
  dsimp only at h
  split at h
  · exact absurd h (by simp)
  · split at h
    · exact absurd h (by simp)
    · split at h
      · exact absurd h (by simp)
      · have key : ∃ u ∈ filterTasksByContext ctx hour
            ((parseTodoFile todo).filter (fun x => !x.completed)),
            t.tags = u.tags ∧ t.completed = u.completed ∧
              t.estimatedDuration = u.estimatedDuration := by
          split at h
          · cases hbind : llmResp.bind (fun r => parseLlmSelection r
                (filterTasksByContext ctx hour
                  ((parseTodoFile todo).filter (fun x => !x.completed)))) with
            | none =>
              rw [hbind] at h
              rcases selectTaskHeuristic_mem h with ⟨u, hu, rfl⟩
              exact ⟨u, hu, (heuristicScoreTask_fields ctx u).1,
                (heuristicScoreTask_fields ctx u).2.1,
                (heuristicScoreTask_fields ctx u).2.2⟩
            | some t' =>
              rw [hbind] at h
              injection h with h
              subst h
              rcases Option.bind_eq_some.mp hbind with ⟨r, _, hsel⟩
              exact ⟨t', parseLlmSelection_mem hsel, rfl, rfl, rfl⟩
          · rcases selectTaskHeuristic_mem h with ⟨u, hu, rfl⟩
            exact ⟨u, hu, (heuristicScoreTask_fields ctx u).1,
              (heuristicScoreTask_fields ctx u).2.1,
              (heuristicScoreTask_fields ctx u).2.2⟩
        rcases key with ⟨u, huf, htags, hcomp, hdur⟩
        rcases mem_filterTasksByContext huf with ⟨v, hv, hkeep, rfl⟩
        rcases List.mem_filter.mp hv with ⟨_, hvpend⟩
        have hfields := adjustTaskPriority_fields ctx hour v
        have hprops := contextKeep_props hkeep
        rw [htags, hcomp, hdur, hfields.1, hfields.2.1, hfields.2.2]
        refine ⟨by simpa using hvpend, hprops.1, hprops.2⟩

/-- C7 witness: the selector applied to the scenario TODO during a deploy
returns the pending `#short #creative` task, which satisfies the
invariant. -/
theorem selector_returns_pending_filtered_witness :
    (selectBestTask false { deployActive := true, timerDuration := 1800, useLlm := false }
        12 scenarioTodoContent none).map (·.completed) = some false ∧
    ((selectBestTask false { deployActive := true, timerDuration := 1800, useLlm := false }
        12 scenarioTodoContent none).map
      (fun t => decide ("#backend".toList ∉ t.tags.map toLowerL))) = some true := by
  have hsel : ∃ t, selectBestTask false
      { deployActive := true, timerDuration := 1800, useLlm := false }
      12 scenarioTodoContent none = some t := by
    cases hs : selectBestTask false
        { deployActive := true, timerDuration := 1800, useLlm := false }
        12 scenarioTodoContent none with
    | none => exact absurd hs (by decide)
    | some t => exact ⟨t, rfl⟩
  rcases hsel with ⟨t, hs⟩
  have h := selector_returns_pending_filtered false
    { deployActive := true, timerDuration := 1800, useLlm := false }
    12 scenarioTodoContent none t hs
  rw [hs]
  have hback := h.2.1 rfl
  constructor
  · show some t.completed = some false
    rw [h.1]
  · show some (decide ("#backend".toList ∉ t.tags.map toLowerL)) = some true
    exact congrArg some (decide_eq_true hback)

end DeployBot
